import Mathlib

/-!
Shallow embedding of `src/youtube_downloader_app.py` (a Streamlit
YouTube-downloader app) and proofs about its claims.

The program keeps a per-session mutable record (`st.session_state`) and,
when a download button is pressed with a non-empty URL, runs one download
attempt: reset the state, resolve the URL via pytube's `YouTube`
constructor, sanitize the title into a filename, select a stream according
to the requested kind (`"mp4"` or `"mp3"`), transfer the stream's bytes
into an in-memory buffer, and record the result.  All exceptions in the
attempt are caught by one top-level handler.

The external pytube library is modelled by oracles: `resolve` is the
outcome of the `YouTube(url, ...)` construction plus metadata access
(either an exception message or the video metadata), and `transfer` is the
outcome of `stream.stream_to_buffer(buffer)` (progress-callback writes,
whether the completion callback fired, and either the buffered bytes or an
exception message).  Python byte strings are `List Nat`, Python floats
arising from true division are `ℚ`, and a Python variable that may be
`None` is an `Option`.
-/

namespace YoutubeDownloader

/-- One entry of `yt.streams`, with the attributes the app reads:
`progressive`/`only_audio` flags, the container `file_extension`, and the
numeric quality keys used by `order_by` (`resolution` in lines for video,
`abr` in kbps for audio). Python's `isalnum`/`rstrip` and the stream
attributes are modelled over these Lean types. -/
structure MediaStream where
  progressive : Bool
  only_audio : Bool
  file_extension : String
  resolution : Nat
  abr : Nat
deriving Repr, DecidableEq

/-- Result of a successful `YouTube(url)` resolution: `yt.title`,
`yt.length` (seconds) and `yt.streams`. -/
structure VideoMeta where
  title : String
  length : Nat
  streams : List MediaStream
deriving Repr, DecidableEq

/-- Outcome of `stream.stream_to_buffer(buffer)`:
`progressUpdates` are the successive values the progress callback writes to
`st.session_state.download_progress`; `completeFired` records whether the
completion callback ran (it sets `download_complete := true`); `result` is
either the buffered bytes (`buffer.getvalue()`) or the message of an
exception raised during the transfer. -/
structure TransferSpec where
  progressUpdates : List ℚ
  completeFired : Bool
  result : Except String (List Nat)

/-- `st.session_state` as initialized and mutated by the app
(lines 29–42 initialize every field except `download_type`, which is first
assigned by a button handler). -/
structure SessionState where
  download_progress : ℚ
  download_complete : Bool
  video_info : Option String
  download_error : Option String
  download_data : Option (List Nat)
  download_filename : Option String
  download_mime : Option String
  download_type : Option String
deriving Repr, DecidableEq

/-- The state after the `if 'x' not in st.session_state` initialization
block (lines 29–42): progress `0.0`, complete `False`, everything else
`None`; `download_type` does not exist yet, modelled as `none`. -/
def initialState : SessionState :=
  { download_progress := 0
    download_complete := false
    video_info := none
    download_error := none
    download_data := none
    download_filename := none
    download_mime := none
    download_type := none }

/-- Lines 79–85: "Reset state for new download attempt".  Clears the seven
initialized fields; `download_type` (set by the button handler just
before) is kept. -/
def resetForAttempt (s : SessionState) : SessionState :=
  { s with
    download_progress := 0
    download_complete := false
    video_info := none
    download_error := none
    download_data := none
    download_filename := none
    download_mime := none }

/-- The character filter of line 102:
`c.isalnum() or c in (' ', '.', '_', '-')`.  Python's `isalnum` is
Unicode-aware; `Char.isAlphanum` models its ASCII fragment. -/
def keepChar (c : Char) : Bool :=
  c.isAlphanum || c = ' ' || c = '.' || c = '_' || c = '-'

/-- Python's `str.upper()` (used on the `"mp4"`/`"mp3"` download-type
string in the error message of line 131), modelled character-wise. -/
def pyUpper (s : String) : String :=
  String.mk (s.toList.map Char.toUpper)

/-- Python's `str.rstrip()` on a character list: remove trailing
whitespace. -/
def rstripList (l : List Char) : List Char :=
  ((l.reverse).dropWhile Char.isWhitespace).reverse

/-- Line 102 on a character list: keep the allowed characters, then strip
trailing whitespace. -/
def sanitizeList (l : List Char) : List Char :=
  rstripList (l.filter keepChar)

/-- Line 102: `"".join(c for c in yt.title if c.isalnum() or c in
(' ', '.', '_', '-')).rstrip()`. -/
def sanitized_title (title : String) : String :=
  String.mk (sanitizeList title.toList)

/-- Line 103: the markdown info string
`f"**Title:** {yt.title}\n**Length:** {yt.length // 60}m {yt.length % 60}s"`. -/
def videoInfoText (title : String) (length : Nat) : String :=
  "**Title:** " ++ title ++ "\n**Length:** " ++ toString (length / 60)
    ++ "m " ++ toString (length % 60) ++ "s"

/-- `.order_by(key).desc().first()`: the element with the greatest key
(rightmost among equals, matching a stable ascending sort followed by
`desc()`), or `None` on an empty list. -/
def firstByDesc (key : MediaStream → Nat) : List MediaStream → Option MediaStream
  | [] => none
  | s :: ss =>
    match firstByDesc key ss with
    | none => some s
    | some t => if key s ≤ key t then some t else some s

/-- Line 114: `yt.streams.filter(progressive=True, file_extension='mp4')
.order_by('resolution').desc().first()`. -/
def selectVideoStream (streams : List MediaStream) : Option MediaStream :=
  firstByDesc (fun s => s.resolution)
    (streams.filter (fun s => s.progressive && s.file_extension == "mp4"))

/-- Line 123: `yt.streams.filter(only_audio=True).order_by('abr').desc()
.first()`. -/
def selectAudioStream (streams : List MediaStream) : Option MediaStream :=
  firstByDesc (fun s => s.abr) (streams.filter (fun s => s.only_audio))

/-- Lines 165–173, the `except Exception as e` handler: store
`f"An error occurred: {e}"` in `download_error` and clear `download_data`
and `video_info` (the handler does not touch `download_filename`,
`download_mime`, `download_progress` or `download_complete`). -/
def applyExceptHandler (e : String) (s : SessionState) : SessionState :=
  { s with
    download_error := some ("An error occurred: " ++ e)
    download_data := none
    video_info := none }

/-- Lines 130–163: the `if not stream` check and, when a stream was
selected, the transfer into the in-memory buffer.  When no stream matched,
`download_error` is set to `f"No suitable
{st.session_state.download_type.upper()} stream found."`; otherwise the
transfer's callbacks update `download_progress`/`download_complete` and
the buffered bytes land in `download_data` — unless the transfer raises,
which is caught by the top-level handler (lines 165–173). -/
def finishWithStream (dtype : String) (selected : Option MediaStream)
    (transfer : MediaStream → TransferSpec) (s2 : SessionState) : SessionState :=
  match selected with
  | none =>
    { s2 with
      download_error := some ("No suitable " ++ pyUpper dtype ++ " stream found.") }
  | some stream =>
    let t := transfer stream
    let s3 := { s2 with
      download_progress := (t.progressUpdates.getLast?).getD s2.download_progress
      download_complete := s2.download_complete || t.completeFired }
    match t.result with
    | .error e => applyExceptHandler e s3
    | .ok bytes => { s3 with download_data := some bytes }

/-- Lines 93–173, the `try` block of one attempt, run on the state left by
the reset.  Mirrors the source order: resolve, build the info string,
branch on `download_type` (`"mp4"`/`"mp3"`) selecting a stream and
assigning filename and MIME (the assignment happens before the
`if not stream` check, so it runs even when selection fails), then
`finishWithStream`; any raised exception goes to `applyExceptHandler`. -/
def attemptBody (dtype : String) (resolve : Except String VideoMeta)
    (transfer : MediaStream → TransferSpec) (s0 : SessionState) : SessionState :=
  match resolve with
  | .error e => applyExceptHandler e s0
  | .ok yt =>
    let s1 := { s0 with video_info := some (videoInfoText yt.title yt.length) }
    if dtype = "mp4" then
      finishWithStream dtype (selectVideoStream yt.streams) transfer
        { s1 with
          download_filename := some (sanitized_title yt.title ++ ".mp4")
          download_mime := some "video/mp4" }
    else if dtype = "mp3" then
      finishWithStream dtype (selectAudioStream yt.streams) transfer
        { s1 with
          download_filename := some (sanitized_title yt.title ++ ".mp3")
          download_mime := some "audio/mp3" }
    else
      finishWithStream dtype none transfer s1

/-- One full download attempt (lines 77–173): the button handler stores
`download_type`, the reset block clears the session fields, then the
`try` block runs. -/
def runAttempt (prior : SessionState) (dtype : String)
    (resolve : Except String VideoMeta)
    (transfer : MediaStream → TransferSpec) : SessionState :=
  attemptBody dtype resolve transfer
    (resetForAttempt { prior with download_type := some dtype })

/-- Lines 9–15, `progress_callback`: `percentage = ((total_size -
bytes_remaining) / total_size) * 100`, stored into `download_progress`.
Python raises `ZeroDivisionError` when `total_size == 0`, modelled by
`none`; otherwise the float result is modelled as a rational. -/
def progress_callback (total_size bytes_remaining : Nat) : Option ℚ :=
  if total_size = 0 then none
  else some ((((total_size : ℚ) - (bytes_remaining : ℚ)) / (total_size : ℚ)) * 100)

/-- Line 177: `if st.session_state.download_data and
st.session_state.download_filename:` — the download button renders only
when both values are truthy in Python's sense (not `None`, not empty). -/
def showDownloadButton (s : SessionState) : Bool :=
  (match s.download_data with
   | none => false
   | some bs => !bs.isEmpty) &&
  (match s.download_filename with
   | none => false
   | some f => !f.isEmpty)

/-- States reachable in a session: the initialized state, followed by any
sequence of attempts (the buttons only ever set `download_type` to
`"mp4"` or `"mp3"`); render passes do not mutate the state. -/
inductive Reachable : SessionState → Prop
  | init : Reachable initialState
  | step {s : SessionState} (dtype : String) (resolve : Except String VideoMeta)
      (transfer : MediaStream → TransferSpec)
      (hdt : dtype = "mp4" ∨ dtype = "mp3") (hs : Reachable s) :
      Reachable (runAttempt s dtype resolve transfer)

/-! ### Characterization of one attempt's outcome

Because the reset (lines 79–85) clears every session field and the button
handler overwrites `download_type`, the state an attempt produces is a
function of the requested kind and the resolver/transfer behaviour alone;
the lemmas below compute it in each of the source's control-flow paths. -/

lemma runAttempt_resolveError (prior : SessionState) (dtype : String) (e : String)
    (t : MediaStream → TransferSpec) :
    runAttempt prior dtype (.error e) t =
      { initialState with
        download_type := some dtype
        download_error := some ("An error occurred: " ++ e) } := rfl

lemma runAttempt_ok_mp4 (prior : SessionState) (yt : VideoMeta)
    (t : MediaStream → TransferSpec) :
    runAttempt prior "mp4" (.ok yt) t =
      finishWithStream "mp4" (selectVideoStream yt.streams) t
        { initialState with
          download_type := some "mp4"
          video_info := some (videoInfoText yt.title yt.length)
          download_filename := some (sanitized_title yt.title ++ ".mp4")
          download_mime := some "video/mp4" } := rfl

lemma runAttempt_ok_mp3 (prior : SessionState) (yt : VideoMeta)
    (t : MediaStream → TransferSpec) :
    runAttempt prior "mp3" (.ok yt) t =
      finishWithStream "mp3" (selectAudioStream yt.streams) t
        { initialState with
          download_type := some "mp3"
          video_info := some (videoInfoText yt.title yt.length)
          download_filename := some (sanitized_title yt.title ++ ".mp3")
          download_mime := some "audio/mp3" } := rfl

lemma runAttempt_ok_other (prior : SessionState) (dtype : String) (yt : VideoMeta)
    (t : MediaStream → TransferSpec) (h4 : dtype ≠ "mp4") (h3 : dtype ≠ "mp3") :
    runAttempt prior dtype (.ok yt) t =
      { initialState with
        download_type := some dtype
        video_info := some (videoInfoText yt.title yt.length)
        download_error := some ("No suitable " ++ pyUpper dtype ++ " stream found.") } := by
  unfold runAttempt attemptBody
  dsimp only
  rw [if_neg h4, if_neg h3]
  rfl

lemma finishWithStream_none (dtype : String) (t : MediaStream → TransferSpec)
    (s2 : SessionState) :
    finishWithStream dtype none t s2 =
      { s2 with
        download_error := some ("No suitable " ++ pyUpper dtype ++ " stream found.") } := rfl

lemma finishWithStream_some_ok (dtype : String) (stream : MediaStream)
    (t : MediaStream → TransferSpec) (s2 : SessionState) (bytes : List Nat)
    (h : (t stream).result = .ok bytes) :
    finishWithStream dtype (some stream) t s2 =
      { s2 with
        download_progress := ((t stream).progressUpdates.getLast?).getD s2.download_progress
        download_complete := s2.download_complete || (t stream).completeFired
        download_data := some bytes } := by
  simp only [finishWithStream]
  rw [h]

lemma finishWithStream_some_error (dtype : String) (stream : MediaStream)
    (t : MediaStream → TransferSpec) (s2 : SessionState) (e : String)
    (h : (t stream).result = .error e) :
    finishWithStream dtype (some stream) t s2 =
      { s2 with
        download_progress := ((t stream).progressUpdates.getLast?).getD s2.download_progress
        download_complete := s2.download_complete || (t stream).completeFired
        download_error := some ("An error occurred: " ++ e)
        download_data := none
        video_info := none } := by
  simp only [finishWithStream]
  rw [h]
  rfl

/-- If the stream list has no audio-only entry, line 123's
`filter(only_audio=True)...first()` yields `None`. -/
lemma selectAudioStream_eq_none (streams : List MediaStream)
    (h : ∀ s ∈ streams, s.only_audio = false) :
    selectAudioStream streams = none := by
  unfold selectAudioStream
  have hf : streams.filter (fun s => s.only_audio) = [] :=
    List.filter_eq_nil_iff.mpr (by intro a ha hcontra; simp [h a ha] at hcontra)
  rw [hf]
  rfl

/-! ### Sanitization lemmas (line 102) -/

lemma dropWhile_dropWhile {α : Type} (p : α → Bool) (l : List α) :
    (l.dropWhile p).dropWhile p = l.dropWhile p := by
  induction l with
  | nil => rfl
  | cons x xs ih =>
    by_cases h : p x
    · simp [List.dropWhile_cons, h, ih]
    · simp [List.dropWhile_cons, h]

lemma rstripList_idem (l : List Char) : rstripList (rstripList l) = rstripList l := by
  unfold rstripList
  rw [List.reverse_reverse, dropWhile_dropWhile]

lemma mem_of_mem_rstripList {c : Char} {l : List Char} (h : c ∈ rstripList l) : c ∈ l := by
  unfold rstripList at h
  rw [List.mem_reverse] at h
  exact List.mem_reverse.mp ((List.dropWhile_sublist Char.isWhitespace).mem h)

lemma filter_rstripList_filter (p : Char → Bool) (l : List Char) :
    (rstripList (l.filter p)).filter p = rstripList (l.filter p) := by
  rw [List.filter_eq_self]
  intro a ha
  exact (List.mem_filter.mp (mem_of_mem_rstripList ha)).2

lemma sanitizeList_idem (l : List Char) : sanitizeList (sanitizeList l) = sanitizeList l := by
  unfold sanitizeList
  rw [filter_rstripList_filter, rstripList_idem]

/-! ### Concrete fixtures used by witnesses and counterexamples -/

/-- A progressive 720p mp4 stream (Scenario A of the spec). -/
def progressiveMp4Stream : MediaStream :=
  { progressive := true, only_audio := false, file_extension := "mp4"
    resolution := 720, abr := 0 }

/-- An audio-only 128 kbps stream in a webm container. -/
def audioOnlyStream : MediaStream :=
  { progressive := false, only_audio := true, file_extension := "webm"
    resolution := 0, abr := 128 }

/-- Scenario A metadata: title `"Test: Video!"`, 125 s, one progressive
mp4 stream at 720p. -/
def scenarioAMeta : VideoMeta :=
  { title := "Test: Video!", length := 125, streams := [progressiveMp4Stream] }

/-- Metadata whose stream list has zero audio-only streams (Scenario B). -/
def noAudioMeta : VideoMeta :=
  { title := "T", length := 10, streams := [progressiveMp4Stream] }

/-- Metadata with a single audio-only stream. -/
def audioMeta : VideoMeta :=
  { title := "Song", length := 61, streams := [audioOnlyStream] }

/-- A transfer that reports 100% progress, fires the completion callback
and buffers one byte. -/
def okTransfer : MediaStream → TransferSpec :=
  fun _ => { progressUpdates := [100], completeFired := true, result := .ok [7] }

/-- A transfer that succeeds with an empty buffer (a zero-byte file). -/
def emptyTransfer : MediaStream → TransferSpec :=
  fun _ => { progressUpdates := [], completeFired := false, result := .ok [] }

/-- A transfer that raises `"network down"` after one progress event. -/
def failTransfer : MediaStream → TransferSpec :=
  fun _ => { progressUpdates := [50], completeFired := false, result := .error "network down" }

/-! ### Claim C1 -/

/-- C1 (counterexample): on a resolving URL with zero audio-only streams,
the audio attempt's `lastError` is `"No suitable MP3 stream found."` —
not `"No suitable AUDIO stream found."` as the claim states — because the
message interpolates `download_type.upper()` and the audio button stores
`"mp3"`.  The buffered bytes remain unset. -/
theorem scenarioB_message_is_MP3_not_AUDIO :
    (runAttempt initialState "mp3" (.ok noAudioMeta) okTransfer).download_error
        = some "No suitable MP3 stream found." ∧
    ((runAttempt initialState "mp3" (.ok noAudioMeta) okTransfer).download_error
        == some "No suitable AUDIO stream found.") = false ∧
    (runAttempt initialState "mp3" (.ok noAudioMeta) okTransfer).download_data = none :=
  ⟨rfl, by decide, rfl⟩

/-- C1 (amended): for every attempt with kind audio on a URL that resolves
but whose stream list contains zero audio-only streams, the attempt sets
`lastError` to exactly `"No suitable MP3 stream found."`, leaves
`bufferedBytes` unset, and performs no byte transfer (the resulting state
does not depend on the transfer behaviour). -/
theorem audio_no_stream_sets_MP3_error (prior : SessionState) (yt : VideoMeta)
    (t t' : MediaStream → TransferSpec)
    (h : ∀ s ∈ yt.streams, s.only_audio = false) :
    (runAttempt prior "mp3" (.ok yt) t).download_error
        = some "No suitable MP3 stream found." ∧
    (runAttempt prior "mp3" (.ok yt) t).download_data = none ∧
    runAttempt prior "mp3" (.ok yt) t = runAttempt prior "mp3" (.ok yt) t' := by
  have hsel := selectAudioStream_eq_none yt.streams h
  rw [runAttempt_ok_mp3 prior yt t, runAttempt_ok_mp3 prior yt t', hsel,
    finishWithStream_none, finishWithStream_none]
  exact ⟨rfl, rfl, rfl⟩

/-- C1 (witness): the amended statement at Scenario B's concrete input. -/
theorem audio_no_stream_sets_MP3_error_witness :
    (runAttempt initialState "mp3" (.ok noAudioMeta) okTransfer).download_error
        = some "No suitable MP3 stream found." ∧
    (runAttempt initialState "mp3" (.ok noAudioMeta) okTransfer).download_data = none ∧
    runAttempt initialState "mp3" (.ok noAudioMeta) okTransfer
        = runAttempt initialState "mp3" (.ok noAudioMeta) failTransfer :=
  audio_no_stream_sets_MP3_error initialState noAudioMeta okTransfer failTransfer (by decide)

/-! ### Claim C2 -/

/-- C2 (counterexample): an attempt that fails during byte transfer leaves
`outputFilename` and `outputMime` set (the except handler clears only
`download_data` and `video_info`), refuting "outputFilename and outputMime
are set only when bufferedBytes is also set". -/
theorem filename_set_without_data :
    (runAttempt initialState "mp4" (.ok scenarioAMeta) failTransfer).download_data = none ∧
    (runAttempt initialState "mp4" (.ok scenarioAMeta) failTransfer).download_filename
        = some "Test Video.mp4" ∧
    (runAttempt initialState "mp4" (.ok scenarioAMeta) failTransfer).download_mime
        = some "video/mp4" :=
  ⟨rfl, rfl, rfl⟩

/-- C2 (amended): `outputFilename`/`outputMime` are unset after an attempt
that fails during metadata resolution; but after a failure in stream
selection or in byte transfer — for either requested kind — they remain
set to the values derived from the resolved title, even though
`bufferedBytes` is unset. -/
theorem filename_mime_survive_late_failures (prior : SessionState) (dtype e : String)
    (yt : VideoMeta) (t : MediaStream → TransferSpec) :
    (runAttempt prior dtype (.error e) t).download_filename = none ∧
    (runAttempt prior dtype (.error e) t).download_mime = none ∧
    (selectVideoStream yt.streams = none →
      (runAttempt prior "mp4" (.ok yt) t).download_filename
          = some (sanitized_title yt.title ++ ".mp4") ∧
      (runAttempt prior "mp4" (.ok yt) t).download_mime = some "video/mp4" ∧
      (runAttempt prior "mp4" (.ok yt) t).download_data = none) ∧
    (selectAudioStream yt.streams = none →
      (runAttempt prior "mp3" (.ok yt) t).download_filename
          = some (sanitized_title yt.title ++ ".mp3") ∧
      (runAttempt prior "mp3" (.ok yt) t).download_mime = some "audio/mp3" ∧
      (runAttempt prior "mp3" (.ok yt) t).download_data = none) ∧
    (∀ stream, selectVideoStream yt.streams = some stream →
      (t stream).result = .error e →
      (runAttempt prior "mp4" (.ok yt) t).download_filename
          = some (sanitized_title yt.title ++ ".mp4") ∧
      (runAttempt prior "mp4" (.ok yt) t).download_mime = some "video/mp4" ∧
      (runAttempt prior "mp4" (.ok yt) t).download_data = none) ∧
    (∀ stream, selectAudioStream yt.streams = some stream →
      (t stream).result = .error e →
      (runAttempt prior "mp3" (.ok yt) t).download_filename
          = some (sanitized_title yt.title ++ ".mp3") ∧
      (runAttempt prior "mp3" (.ok yt) t).download_mime = some "audio/mp3" ∧
      (runAttempt prior "mp3" (.ok yt) t).download_data = none) := by
  refine ⟨?_, ?_, ?_, ?_, ?_, ?_⟩
  · rw [runAttempt_resolveError]
    rfl
  · rw [runAttempt_resolveError]
    rfl
  · intro hsel
    rw [runAttempt_ok_mp4, hsel, finishWithStream_none]
    exact ⟨rfl, rfl, rfl⟩
  · intro hsel
    rw [runAttempt_ok_mp3, hsel, finishWithStream_none]
    exact ⟨rfl, rfl, rfl⟩
  · intro stream hsel hres
    rw [runAttempt_ok_mp4, hsel, finishWithStream_some_error _ _ _ _ _ hres]
    exact ⟨rfl, rfl, rfl⟩
  · intro stream hsel hres
    rw [runAttempt_ok_mp3, hsel, finishWithStream_some_error _ _ _ _ _ hres]
    exact ⟨rfl, rfl, rfl⟩

/-- C2 (witness): all four late-failure legs at concrete inputs — a video
attempt with no progressive mp4 stream, an audio attempt with no
audio-only stream, a video transfer failure and an audio transfer
failure. -/
theorem filename_mime_survive_late_failures_witness :
    ((runAttempt initialState "mp4" (.ok audioMeta) failTransfer).download_filename
        = some (sanitized_title audioMeta.title ++ ".mp4") ∧
      (runAttempt initialState "mp4" (.ok audioMeta) failTransfer).download_data = none) ∧
    ((runAttempt initialState "mp3" (.ok noAudioMeta) failTransfer).download_filename
        = some (sanitized_title noAudioMeta.title ++ ".mp3") ∧
      (runAttempt initialState "mp3" (.ok noAudioMeta) failTransfer).download_data = none) ∧
    ((runAttempt initialState "mp4" (.ok scenarioAMeta) failTransfer).download_filename
        = some (sanitized_title scenarioAMeta.title ++ ".mp4") ∧
      (runAttempt initialState "mp4" (.ok scenarioAMeta) failTransfer).download_data = none) ∧
    ((runAttempt initialState "mp3" (.ok audioMeta) failTransfer).download_filename
        = some (sanitized_title audioMeta.title ++ ".mp3") ∧
      (runAttempt initialState "mp3" (.ok audioMeta) failTransfer).download_data = none) := by
  refine ⟨?_, ?_, ?_, ?_⟩
  · have h := (filename_mime_survive_late_failures initialState "mp4" "network down"
      audioMeta failTransfer).2.2.1 rfl
    exact ⟨h.1, h.2.2⟩
  · have h := (filename_mime_survive_late_failures initialState "mp3" "network down"
      noAudioMeta failTransfer).2.2.2.1 rfl
    exact ⟨h.1, h.2.2⟩
  · have h := (filename_mime_survive_late_failures initialState "mp4" "network down"
      scenarioAMeta failTransfer).2.2.2.2.1 progressiveMp4Stream rfl rfl
    exact ⟨h.1, h.2.2⟩
  · have h := (filename_mime_survive_late_failures initialState "mp3" "network down"
      audioMeta failTransfer).2.2.2.2.2 audioOnlyStream rfl rfl
    exact ⟨h.1, h.2.2⟩

/-! ### Claim C4 -/

/-- C4 (counterexample): when the stream's reported filesize is 0 the
percentage computation `(total_size - bytes_remaining) / total_size * 100`
divides by zero (a Python `ZeroDivisionError`), even though
`0 ≤ bytes_remaining ≤ total_size` holds. -/
theorem progress_callback_zero_filesize : progress_callback 0 0 = none := rfl

/-- C4 (amended): for every progress notification with
`bytes_remaining ≤ total_size` and a *positive* total filesize, the
computed percentage is defined and lies in `[0, 100]`. -/
theorem progress_callback_in_range (total_size bytes_remaining : Nat)
    (hle : bytes_remaining ≤ total_size) (hpos : 0 < total_size) :
    ∃ p, progress_callback total_size bytes_remaining = some p ∧ 0 ≤ p ∧ p ≤ 100 := by
  have hne : total_size ≠ 0 := Nat.pos_iff_ne_zero.mp hpos
  have htq : (0 : ℚ) < (total_size : ℚ) := by exact_mod_cast hpos
  have hbq : (bytes_remaining : ℚ) ≤ (total_size : ℚ) := by exact_mod_cast hle
  refine ⟨(((total_size : ℚ) - (bytes_remaining : ℚ)) / (total_size : ℚ)) * 100, ?_, ?_, ?_⟩
  · unfold progress_callback
    rw [if_neg hne]
  · have h0 : (0 : ℚ) ≤ ((total_size : ℚ) - (bytes_remaining : ℚ)) / (total_size : ℚ) :=
      div_nonneg (by linarith) (le_of_lt htq)
    exact mul_nonneg h0 (by norm_num)
  · have h1 : ((total_size : ℚ) - (bytes_remaining : ℚ)) / (total_size : ℚ) ≤ 1 :=
      (div_le_one htq).mpr (by linarith)
    calc (((total_size : ℚ) - (bytes_remaining : ℚ)) / (total_size : ℚ)) * 100
        ≤ 1 * 100 := mul_le_mul_of_nonneg_right h1 (by norm_num)
      _ = 100 := by norm_num

/-- C4 (witness): the amended statement at `total_size = 200`,
`bytes_remaining = 50`. -/
theorem progress_callback_in_range_witness :
    ∃ p, progress_callback 200 50 = some p ∧ 0 ≤ p ∧ p ≤ 100 :=
  progress_callback_in_range 200 50 (by norm_num) (by norm_num)

/-! ### Claim C5 -/

/-- C5: the filename sanitization of line 102 (keep alphanumerics, space,
period, underscore, hyphen; strip trailing whitespace) is idempotent. -/
theorem sanitized_title_idempotent (s : String) :
    sanitized_title (sanitized_title s) = sanitized_title s := by
  unfold sanitized_title
  exact congrArg String.mk (sanitizeList_idem s.toList)

/-! ### Claim C6 -/

/-- C6 (Scenario A): a video attempt on a URL resolving to title
`"Test: Video!"` with duration 125 s and one progressive mp4 stream yields
`outputFilename = "Test Video.mp4"`, and the rendered info text contains
`"2m 5s"`. -/
theorem scenarioA_filename_and_duration :
    (runAttempt initialState "mp4" (.ok scenarioAMeta) okTransfer).download_filename
        = some "Test Video.mp4" ∧
    ∃ pre post, (runAttempt initialState "mp4" (.ok scenarioAMeta) okTransfer).video_info
        = some (pre ++ "2m 5s" ++ post) :=
  ⟨rfl, "**Title:** Test: Video!\n**Length:** ", "", rfl⟩

/-! ### Claim C7 -/

/-- C7: starting a new attempt first resets `progressPercent` to 0 and
`isComplete` to false and clears `lastError`, `bufferedBytes`,
`videoInfo`, `outputFilename`, `outputMime`, for every prior state, before
the resolution/transfer body runs (the attempt is literally the body
applied to the reset state). -/
theorem attempt_resets_state_first (prior : SessionState) (dtype : String)
    (r : Except String VideoMeta) (t : MediaStream → TransferSpec) :
    runAttempt prior dtype r t
        = attemptBody dtype r t (resetForAttempt { prior with download_type := some dtype }) ∧
    (resetForAttempt { prior with download_type := some dtype }).download_progress = 0 ∧
    (resetForAttempt { prior with download_type := some dtype }).download_complete = false ∧
    (resetForAttempt { prior with download_type := some dtype }).download_error = none ∧
    (resetForAttempt { prior with download_type := some dtype }).download_data = none ∧
    (resetForAttempt { prior with download_type := some dtype }).video_info = none ∧
    (resetForAttempt { prior with download_type := some dtype }).download_filename = none ∧
    (resetForAttempt { prior with download_type := some dtype }).download_mime = none :=
  ⟨rfl, rfl, rfl, rfl, rfl, rfl, rfl, rfl⟩

/-! ### Claim C3 -/

/-- C3: after any attempt concludes (success, no-stream failure, or a
caught exception), exactly one of `bufferedBytes` and `lastError` is set —
never both and never neither. -/
theorem attempt_sets_exactly_one_of_data_error (prior : SessionState) (dtype : String)
    (r : Except String VideoMeta) (t : MediaStream → TransferSpec) :
    ((∃ bs, (runAttempt prior dtype r t).download_data = some bs) ∧
      (runAttempt prior dtype r t).download_error = none) ∨
    ((runAttempt prior dtype r t).download_data = none ∧
      ∃ m, (runAttempt prior dtype r t).download_error = some m) := by
  rcases r with e | yt
  · right
    rw [runAttempt_resolveError]
    exact ⟨rfl, _, rfl⟩
  · by_cases h4 : dtype = "mp4"
    · subst h4
      rw [runAttempt_ok_mp4]
      rcases hsel : selectVideoStream yt.streams with _ | stream
      · right
        rw [finishWithStream_none]
        exact ⟨rfl, _, rfl⟩
      · rcases hres : (t stream).result with e | bytes
        · right
          rw [finishWithStream_some_error _ _ _ _ _ hres]
          exact ⟨rfl, _, rfl⟩
        · left
          rw [finishWithStream_some_ok _ _ _ _ _ hres]
          exact ⟨⟨bytes, rfl⟩, rfl⟩
    · by_cases h3 : dtype = "mp3"
      · subst h3
        rw [runAttempt_ok_mp3]
        rcases hsel : selectAudioStream yt.streams with _ | stream
        · right
          rw [finishWithStream_none]
          exact ⟨rfl, _, rfl⟩
        · rcases hres : (t stream).result with e | bytes
          · right
            rw [finishWithStream_some_error _ _ _ _ _ hres]
            exact ⟨rfl, _, rfl⟩
          · left
            rw [finishWithStream_some_ok _ _ _ _ _ hres]
            exact ⟨⟨bytes, rfl⟩, rfl⟩
      · right
        rw [runAttempt_ok_other prior dtype yt t h4 h3]
        exact ⟨rfl, _, rfl⟩

/-! ### Claim C8 -/

/-- C8: an exception raised during metadata resolution, or during the byte
transfer of a selected stream, is caught by the attempt's top-level
handler (the attempt still yields a state instead of propagating),
`lastError` becomes `"An error occurred: " ++ e`, and `bufferedBytes` and
`videoInfo` are unset afterwards. -/
theorem exceptions_caught_and_recorded (prior : SessionState) (dtype e : String)
    (yt : VideoMeta) (t : MediaStream → TransferSpec) (stream : MediaStream) :
    ((runAttempt prior dtype (.error e) t).download_error
        = some ("An error occurred: " ++ e) ∧
      (runAttempt prior dtype (.error e) t).download_data = none ∧
      (runAttempt prior dtype (.error e) t).video_info = none) ∧
    (selectVideoStream yt.streams = some stream → (t stream).result = .error e →
      (runAttempt prior "mp4" (.ok yt) t).download_error
          = some ("An error occurred: " ++ e) ∧
      (runAttempt prior "mp4" (.ok yt) t).download_data = none ∧
      (runAttempt prior "mp4" (.ok yt) t).video_info = none) ∧
    (selectAudioStream yt.streams = some stream → (t stream).result = .error e →
      (runAttempt prior "mp3" (.ok yt) t).download_error
          = some ("An error occurred: " ++ e) ∧
      (runAttempt prior "mp3" (.ok yt) t).download_data = none ∧
      (runAttempt prior "mp3" (.ok yt) t).video_info = none) := by
  refine ⟨⟨?_, ?_, ?_⟩, ?_, ?_⟩
  · rw [runAttempt_resolveError]
  · rw [runAttempt_resolveError]
    rfl
  · rw [runAttempt_resolveError]
    rfl
  · intro hsel hres
    rw [runAttempt_ok_mp4, hsel, finishWithStream_some_error _ _ _ _ _ hres]
    exact ⟨rfl, rfl, rfl⟩
  · intro hsel hres
    rw [runAttempt_ok_mp3, hsel, finishWithStream_some_error _ _ _ _ _ hres]
    exact ⟨rfl, rfl, rfl⟩

/-- C8 (witness): resolution failure, a video-transfer failure and an
audio-transfer failure at concrete inputs. -/
theorem exceptions_caught_and_recorded_witness :
    (runAttempt initialState "mp4" (.error "network down") failTransfer).download_error
        = some "An error occurred: network down" ∧
    (runAttempt initialState "mp4" (.ok scenarioAMeta) failTransfer).download_error
        = some "An error occurred: network down" ∧
    (runAttempt initialState "mp3" (.ok audioMeta) failTransfer).download_error
        = some "An error occurred: network down" := by
  refine ⟨?_, ?_, ?_⟩
  · exact (exceptions_caught_and_recorded initialState "mp4" "network down" scenarioAMeta
      failTransfer progressiveMp4Stream).1.1
  · exact ((exceptions_caught_and_recorded initialState "mp4" "network down" scenarioAMeta
      failTransfer progressiveMp4Stream).2.1 rfl rfl).1
  · exact ((exceptions_caught_and_recorded initialState "mp3" "network down" audioMeta
      failTransfer audioOnlyStream).2.2 rfl rfl).1

/-! ### Claim C9 -/

/-- C9: whenever an attempt leaves `outputFilename` set, a video attempt's
filename ends in `".mp4"` with `outputMime = "video/mp4"`, and an audio
attempt's filename ends in `".mp3"` with `outputMime = "audio/mp3"`,
independently of the selected stream's actual container format. -/
theorem kind_fixes_extension_and_mime (prior : SessionState) (dtype : String)
    (r : Except String VideoMeta) (t : MediaStream → TransferSpec) (f : String)
    (hf : (runAttempt prior dtype r t).download_filename = some f) :
    (dtype = "mp4" →
      (∃ base, f = base ++ ".mp4") ∧
      (runAttempt prior dtype r t).download_mime = some "video/mp4") ∧
    (dtype = "mp3" →
      (∃ base, f = base ++ ".mp3") ∧
      (runAttempt prior dtype r t).download_mime = some "audio/mp3") := by
  constructor
  · intro h4
    subst h4
    rcases r with e | yt
    · rw [runAttempt_resolveError] at hf
      exact Option.noConfusion hf
    · rw [runAttempt_ok_mp4] at hf ⊢
      rcases hsel : selectVideoStream yt.streams with _ | stream
      · rw [hsel, finishWithStream_none] at hf
        rw [finishWithStream_none]
        exact ⟨⟨_, (Option.some.inj hf).symm⟩, rfl⟩
      · rcases hres : (t stream).result with e | bytes
        · rw [hsel, finishWithStream_some_error _ _ _ _ _ hres] at hf
          rw [finishWithStream_some_error _ _ _ _ _ hres]
          exact ⟨⟨_, (Option.some.inj hf).symm⟩, rfl⟩
        · rw [hsel, finishWithStream_some_ok _ _ _ _ _ hres] at hf
          rw [finishWithStream_some_ok _ _ _ _ _ hres]
          exact ⟨⟨_, (Option.some.inj hf).symm⟩, rfl⟩
  · intro h3
    subst h3
    rcases r with e | yt
    · rw [runAttempt_resolveError] at hf
      exact Option.noConfusion hf
    · rw [runAttempt_ok_mp3] at hf ⊢
      rcases hsel : selectAudioStream yt.streams with _ | stream
      · rw [hsel, finishWithStream_none] at hf
        rw [finishWithStream_none]
        exact ⟨⟨_, (Option.some.inj hf).symm⟩, rfl⟩
      · rcases hres : (t stream).result with e | bytes
        · rw [hsel, finishWithStream_some_error _ _ _ _ _ hres] at hf
          rw [finishWithStream_some_error _ _ _ _ _ hres]
          exact ⟨⟨_, (Option.some.inj hf).symm⟩, rfl⟩
        · rw [hsel, finishWithStream_some_ok _ _ _ _ _ hres] at hf
          rw [finishWithStream_some_ok _ _ _ _ _ hres]
          exact ⟨⟨_, (Option.some.inj hf).symm⟩, rfl⟩

/-- C9 (witness): the video leg at Scenario A's concrete input. -/
theorem kind_fixes_extension_and_mime_witness :
    (∃ base, ("Test Video.mp4" : String) = base ++ ".mp4") ∧
    (runAttempt initialState "mp4" (.ok scenarioAMeta) okTransfer).download_mime
        = some "video/mp4" :=
  (kind_fixes_extension_and_mime initialState "mp4" (.ok scenarioAMeta) okTransfer
      "Test Video.mp4" rfl).1 rfl

/-! ### Claim C10 -/

lemma toList_string_append (a b : String) : (a ++ b).toList = a.toList ++ b.toList := by
  cases a
  cases b
  rfl

lemma append_ext_ne_empty (a ext : String) (h : ext.toList ≠ []) : a ++ ext ≠ "" := by
  intro hc
  have hl : (a ++ ext).toList = [] := by rw [hc]; rfl
  rw [toList_string_append] at hl
  exact h (List.append_eq_nil.mp hl).2

/-- When `download_data` is set, `download_filename` and `download_mime`
are set and the filename is a non-empty string. -/
def DataImpliesNamed (s : SessionState) : Prop :=
  ∀ bs, s.download_data = some bs →
    ∃ f m, s.download_filename = some f ∧ s.download_mime = some m ∧ f ≠ ""

lemma attempt_dataImpliesNamed (prior : SessionState) (dtype : String)
    (r : Except String VideoMeta) (t : MediaStream → TransferSpec) :
    DataImpliesNamed (runAttempt prior dtype r t) := by
  intro bs hbs
  rcases r with e | yt
  · rw [runAttempt_resolveError] at hbs
    exact Option.noConfusion hbs
  · by_cases h4 : dtype = "mp4"
    · subst h4
      rw [runAttempt_ok_mp4] at hbs ⊢
      rcases hsel : selectVideoStream yt.streams with _ | stream
      · rw [hsel, finishWithStream_none] at hbs
        exact Option.noConfusion hbs
      · rcases hres : (t stream).result with e | bytes
        · rw [hsel, finishWithStream_some_error _ _ _ _ _ hres] at hbs
          exact Option.noConfusion hbs
        · rw [finishWithStream_some_ok _ _ _ _ _ hres]
          exact ⟨sanitized_title yt.title ++ ".mp4", "video/mp4", rfl, rfl,
            append_ext_ne_empty _ ".mp4" (by decide)⟩
    · by_cases h3 : dtype = "mp3"
      · subst h3
        rw [runAttempt_ok_mp3] at hbs ⊢
        rcases hsel : selectAudioStream yt.streams with _ | stream
        · rw [hsel, finishWithStream_none] at hbs
          exact Option.noConfusion hbs
        · rcases hres : (t stream).result with e | bytes
          · rw [hsel, finishWithStream_some_error _ _ _ _ _ hres] at hbs
            exact Option.noConfusion hbs
          · rw [finishWithStream_some_ok _ _ _ _ _ hres]
            exact ⟨sanitized_title yt.title ++ ".mp3", "audio/mp3", rfl, rfl,
              append_ext_ne_empty _ ".mp3" (by decide)⟩
      · rw [runAttempt_ok_other prior dtype yt t h4 h3] at hbs
        exact Option.noConfusion hbs

lemma reachable_dataImpliesNamed (s : SessionState) (h : Reachable s) :
    DataImpliesNamed s := by
  induction h with
  | init => intro bs hbs; exact Option.noConfusion hbs
  | step dtype r t hdt hs ih => exact attempt_dataImpliesNamed _ dtype r t

/-- C10 (counterexample): in the reachable state produced by a successful
transfer of a zero-byte stream, `bufferedBytes` is set (to the empty byte
string) but the download trigger is *not* rendered: line 177's
`if st.session_state.download_data and ...` treats the empty byte string
as falsy.  This refutes "the download trigger is rendered exactly when
bufferedBytes is present". -/
theorem empty_download_hides_button :
    Reachable (runAttempt initialState "mp4" (.ok scenarioAMeta) emptyTransfer) ∧
    (runAttempt initialState "mp4" (.ok scenarioAMeta) emptyTransfer).download_data
        = some [] ∧
    showDownloadButton (runAttempt initialState "mp4" (.ok scenarioAMeta) emptyTransfer)
        = false :=
  ⟨Reachable.step "mp4" (.ok scenarioAMeta) emptyTransfer (Or.inl rfl) Reachable.init,
    rfl, rfl⟩

/-- C10 (amended): in every reachable session state, if `bufferedBytes` is
set then `outputFilename` and `outputMime` are also set; and the download
trigger is rendered exactly when `bufferedBytes` is present *and
non-empty*. -/
theorem buffered_bytes_imply_named_output (s : SessionState) (h : Reachable s) :
    (∀ bs, s.download_data = some bs →
      s.download_filename.isSome = true ∧ s.download_mime.isSome = true) ∧
    (showDownloadButton s = true ↔ ∃ bs, s.download_data = some bs ∧ bs ≠ []) := by
  have hinv := reachable_dataImpliesNamed s h
  constructor
  · intro bs hbs
    obtain ⟨f, m, hf, hm, hne⟩ := hinv bs hbs
    rw [hf, hm]
    exact ⟨rfl, rfl⟩
  · constructor
    · intro hshow
      unfold showDownloadButton at hshow
      rcases hd : s.download_data with _ | bs
      · rw [hd] at hshow
        simp at hshow
      · rw [hd] at hshow
        refine ⟨bs, rfl, ?_⟩
        intro hnil
        subst hnil
        simp at hshow
    · rintro ⟨bs, hbs, hne⟩
      obtain ⟨f, m, hf, hm, hfne⟩ := hinv bs hbs
      unfold showDownloadButton
      rw [hbs, hf]
      show (!bs.isEmpty && !f.isEmpty) = true
      have hb : bs.isEmpty = false := by
        cases bs
        · exact absurd rfl hne
        · rfl
      have hfb : f.isEmpty = false := by
        rcases hfe : f.isEmpty
        · rfl
        · exact absurd ((String.isEmpty_iff f).mp hfe) hfne
      rw [hb, hfb]
      rfl

/-- C10 (witness): the amended statement at a concrete reachable state, in
which a one-byte download makes the trigger render. -/
theorem buffered_bytes_imply_named_output_witness :
    showDownloadButton (runAttempt initialState "mp4" (.ok scenarioAMeta) okTransfer)
        = true :=
  (buffered_bytes_imply_named_output _
      (Reachable.step "mp4" (.ok scenarioAMeta) okTransfer (Or.inl rfl)
        Reachable.init)).2.mpr ⟨[7], rfl, by decide⟩

end YoutubeDownloader
